import Mathlib

set_option autoImplicit false

/-!
Shallow embedding of the DIMM SDK (TypeScript, sdk/src) together with the
spending-limit engine behaviour described by the specification.  Monetary
amounts are modelled in lamports as integers (the source uses BN, an exact
big-integer library); timestamps are integer seconds.  Public keys are
modelled as byte lists, since the address-derivation helpers only ever use
them as seed byte strings.
-/

namespace Dimm

/-- 32-byte public key, modelled as its byte string. -/
abbrev PubKey := List Nat

/-- Agent permissions enumeration (sdk/src/types.ts, AgentPermission). -/
inductive AgentPermission where
  | TransferSol
  | SwapTokens
  | NftOperations
  | Staking
  | Governance
  | DefiProtocols
  | TokenAccounts
  | ExecutePrograms
deriving DecidableEq, Repr

/-- Activity type enumeration (sdk/src/types.ts, ActivityType). -/
inductive ActivityType where
  | Transfer
  | Swap
  | NftOperation
  | Staking
  | Governance
  | DefiInteraction
  | Funding
  | Withdrawal
  | Other
deriving DecidableEq, Repr

/-- Agent account data (sdk/src/types.ts, AgentAccount).  BN amounts and
timestamps become integers in lamports and seconds. -/
structure AgentAccount where
  mainWallet : PubKey
  agentId : Nat
  name : String
  permissions : List AgentPermission
  maxSolPerTransaction : Int
  dailyLimit : Int
  spentToday : Int
  lastDailyReset : Int
  totalSpent : Int
  totalTransactions : Nat
  revoked : Bool
  createdAt : Int
  lastUsedAt : Int
  leafIndex : Nat
deriving DecidableEq, Repr

/-- Protocol configuration (sdk/src/types.ts, ProtocolConfig). -/
structure ProtocolConfig where
  authority : PubKey
  merkleTree : PubKey
  totalAgents : Nat
  version : Nat
  paused : Bool
deriving DecidableEq, Repr

/-- Agent statistics (sdk/src/types.ts, AgentStats).  The source converts
lamport values to SOL for display by dividing by 10^9; the embedding keeps
the exact lamport numerators. -/
structure AgentStats where
  totalSpentLamports : Int
  spentTodayLamports : Int
  totalTransactions : Nat
  remainingDailyLimitLamports : Int
deriving DecidableEq, Repr

/-- validateAgentName (sdk/src/utils.ts): name.length > 0 and <= 32. -/
def validateAgentName (name : String) : Bool :=
  decide (0 < name.length) && decide (name.length ≤ 32)

/-- validateReason (sdk/src/utils.ts): reason.length <= 128. -/
def validateReason (reason : String) : Bool :=
  decide (reason.length ≤ 128)

namespace Agent

/-- Agent.canSpend (sdk/src/agent.ts lines 58-73), at the lamport level.
The source converts the SOL argument to lamports, then returns false when
the amount exceeds maxSolPerTransaction, false when spentToday plus the
amount exceeds dailyLimit, and true otherwise.  It takes no clock input
and reads spentToday as stored. -/
def canSpend (a : AgentAccount) (amountLamports : Int) : Bool :=
  if a.maxSolPerTransaction < amountLamports then false
  else if a.dailyLimit < a.spentToday + amountLamports then false
  else true

/-- Agent.getStats (sdk/src/agent.ts lines 42-53), at the lamport level.
It reports the stored counters directly; remainingDailyLimit is
dailyLimit minus spentToday.  It takes no clock input. -/
def getStats (a : AgentAccount) : AgentStats :=
  { totalSpentLamports := a.totalSpent
  , spentTodayLamports := a.spentToday
  , totalTransactions := a.totalTransactions
  , remainingDailyLimitLamports := a.dailyLimit - a.spentToday }

/-- Agent.reload (sdk/src/agent.ts lines 32-37): the fetched account
replaces the cached data only when the fetch produced a value. -/
def reload (data : AgentAccount) (account : Option AgentAccount) : AgentAccount :=
  match account with
  | some a => a
  | none => data

end Agent

namespace DimmClient

/-- DimmClient.getAgentAccount (sdk/src/client.ts lines 156-170): when the
raw account info is absent it returns null, and in the current source the
deserialization branch is an unimplemented placeholder that also returns
null, so every call yields null. -/
def getAgentAccount (accountInfo : Option (List Nat)) : Option AgentAccount :=
  match accountInfo with
  | none => none
  | some _ => none

/-- The loop body of DimmClient.listAgents: for i = 0 .. n-1 look the agent
up and push it onto the result list when the lookup succeeds. -/
def collectAgents (getAgent : Nat → Option AgentAccount) : Nat → List AgentAccount
  | 0 => []
  | n + 1 => collectAgents getAgent n ++ (getAgent n).toList

/-- DimmClient.listAgents (sdk/src/client.ts lines 392-406): empty when the
protocol config is absent, otherwise one independent lookup per agentId
from 0 to totalAgents - 1, keeping the successful ones in order. -/
def listAgents (cfg : Option ProtocolConfig)
    (getAgent : Nat → Option AgentAccount) : List AgentAccount :=
  match cfg with
  | none => []
  | some c => collectAgents getAgent c.totalAgents

/-- The error message thrown by DimmClient.createAgent for a bad name. -/
def invalidAgentNameMsg : String := "Invalid agent name"

/-- The input-validation step of DimmClient.createAgent (sdk/src/client.ts
lines 108-111): throw an invalid-agent-name error unless validateAgentName
accepts the name. -/
def createAgentNameCheck (name : String) : Except String Unit :=
  if validateAgentName name then Except.ok () else Except.error invalidAgentNameMsg

end DimmClient

/-- getTimeUntilReset (sdk/src/client.ts lines 837-866), with the one-day
step of Date.setDate taken as exactly 86400 seconds (a UTC clock with no
daylight-saving jumps): the next reset is lastReset + 86400, and the
remaining time is clamped at zero and decomposed into h:m:s. -/
def getTimeUntilReset (lastReset now : Int) : Nat × Nat × Nat × Nat :=
  let totalSeconds : Nat := (max 0 (lastReset + 86400 - now)).toNat
  (totalSeconds / 3600, totalSeconds % 3600 / 60, totalSeconds % 60, totalSeconds)

/-- Seed constant (sdk/src/constants.ts): the ASCII bytes of dimm_protocol. -/
def PROTOCOL_SEED : List Nat := "dimm_protocol".toList.map Char.toNat

/-- Seed constant (sdk/src/constants.ts): the ASCII bytes of dimm_agent. -/
def AGENT_SEED : List Nat := "dimm_agent".toList.map Char.toNat

/-- Seed constant (sdk/src/constants.ts): the ASCII bytes of dimm_activity. -/
def ACTIVITY_SEED : List Nat := "dimm_activity".toList.map Char.toNat

/-- The byte string produced by Buffer.writeBigUInt64LE for a value below
2^64: eight bytes, least significant first. -/
def u64LE (n : Nat) : List Nat :=
  [n % 256, n / 256 % 256, n / 256 ^ 2 % 256, n / 256 ^ 3 % 256,
   n / 256 ^ 4 % 256, n / 256 ^ 5 % 256, n / 256 ^ 6 % 256, n / 256 ^ 7 % 256]

/-- Buffer.writeBigUInt64LE throws a range error at or above 2^64; the
embedding returns none there. -/
def writeBigUInt64LE (n : Nat) : Option (List Nat) :=
  if n < 2 ^ 64 then some (u64LE n) else none

/-- Value of a little-endian byte string. -/
def fromLEBytes (bs : List Nat) : Nat :=
  bs.foldr (fun b acc => b + 256 * acc) 0

/-- getProtocolConfigPDA (sdk/src/utils.ts lines 28-36): the seed list
passed to findProgramAddressSync is the protocol seed followed by the
authority key bytes. -/
def getProtocolConfigPDASeeds (authority : PubKey) : List (List Nat) :=
  [PROTOCOL_SEED, authority]

/-- getAgentAccountPDA (sdk/src/utils.ts lines 41-53): the seed list is the
agent seed, the main-wallet key bytes, and the agentId written as an 8-byte
little-endian buffer. -/
def getAgentAccountPDASeeds (mainWallet : PubKey) (agentId : Nat) :
    Option (List (List Nat)) :=
  (writeBigUInt64LE agentId).map (fun b => [AGENT_SEED, mainWallet, b])

/-- getActivityPDA (sdk/src/utils.ts lines 58-70): the seed list is the
activity seed, the agent account key bytes, and the transaction count
written as an 8-byte little-endian buffer. -/
def getActivityPDASeeds (agentAccount : PubKey) (transactionCount : Nat) :
    Option (List (List Nat)) :=
  (writeBigUInt64LE transactionCount).map (fun b => [ACTIVITY_SEED, agentAccount, b])

/-- Error taxonomy of the engine (spec section 7). -/
inductive DimmError where
  | AgentNameTooLong
  | InvalidLimitConfiguration
  | MaxAgentsReached
  | AgentRevoked
  | NumericalOverflow
  | InsufficientPermissions
  | Unauthorized
deriving DecidableEq, Repr

namespace SpendingLimitEngine

/-- Modelled from the spec: the lazy daily reset of section 4.3 of the
on-chain program, which is not present under the SDK sources.  When
now - lastDailyReset >= 86400, spentToday becomes 0 and lastDailyReset
becomes now; otherwise the account is unchanged. -/
def lazyReset (now : Int) (a : AgentAccount) : AgentAccount :=
  if 86400 ≤ now - a.lastDailyReset then
    { a with spentToday := 0, lastDailyReset := now }
  else a

/-- Modelled from the spec: canSpend of section 4.3 of the on-chain
program, which is not present under the SDK sources.  After the lazy
reset it requires amount <= maxPerOperation and spentToday + amount <=
dailyLimit. -/
def canSpend (now : Int) (a : AgentAccount) (amount : Int) : Bool :=
  let b := lazyReset now a
  decide (amount ≤ b.maxSolPerTransaction) && decide (b.spentToday + amount ≤ b.dailyLimit)

/-- Modelled from the spec: record of section 4.3 of the on-chain program,
which is not present under the SDK sources.  Counters are u64 on chain and
every addition is overflow-checked; on overflow nothing is retained. -/
def record (now amount : Int) (a : AgentAccount) : Except DimmError AgentAccount :=
  if 2 ^ 64 ≤ a.spentToday + amount then Except.error DimmError.NumericalOverflow
  else if 2 ^ 64 ≤ a.totalSpent + amount then Except.error DimmError.NumericalOverflow
  else if 2 ^ 64 ≤ a.totalTransactions + 1 then Except.error DimmError.NumericalOverflow
  else Except.ok { a with
    spentToday := a.spentToday + amount
    totalSpent := a.totalSpent + amount
    totalTransactions := a.totalTransactions + 1
    lastUsedAt := now }

/-- Modelled from the spec: updateLimits of section 4.3 of the on-chain
program, which is not present under the SDK sources.  The resulting pair
must satisfy dailyLimit >= maxPerOperation. -/
def updateLimits (newMax newDaily : Option Int) (a : AgentAccount) :
    Except DimmError AgentAccount :=
  if newDaily.getD a.dailyLimit < newMax.getD a.maxSolPerTransaction then
    Except.error DimmError.InvalidLimitConfiguration
  else Except.ok { a with
    maxSolPerTransaction := newMax.getD a.maxSolPerTransaction
    dailyLimit := newDaily.getD a.dailyLimit }

end SpendingLimitEngine

namespace PermissionEngine

/-- Modelled from the spec: replacePermissions of section 4.2 of the
on-chain program, which is not present under the SDK sources.  Full
replacement of the capability set, never a union. -/
def replacePermissions (ps : List AgentPermission) (a : AgentAccount) :
    Except DimmError AgentAccount :=
  Except.ok { a with permissions := ps }

end PermissionEngine

namespace AgentRegistry

/-- Modelled from the spec: revoke of section 4.1 of the on-chain program,
which is not present under the SDK sources (the SDK revokeAgent only
submits a transaction).  It fails with an already-revoked error when
revoked is already set, and otherwise sets revoked permanently. -/
def revoke (a : AgentAccount) : Except DimmError AgentAccount :=
  if a.revoked then Except.error DimmError.AgentRevoked
  else Except.ok { a with revoked := true }

/-- Modelled from the spec: create of section 4.1 of the on-chain program,
which is not present under the SDK sources (the SDK createAgent only
validates the name and submits a transaction).  It validates the name,
validates dailyLimit >= maxPerOperation, rejects with MaxAgentsReached
once totalAgents >= 10000, and otherwise assigns agentId = totalAgents,
zero-initializes the counters, stores the appended leaf index (the next
sequential position), and increments totalAgents. -/
def create (now : Int) (cfg : ProtocolConfig) (name : String)
    (perms : List AgentPermission) (maxPerOperation dailyLimit : Int) :
    Except DimmError (ProtocolConfig × AgentAccount) :=
  if validateAgentName name = false then Except.error DimmError.AgentNameTooLong
  else if dailyLimit < maxPerOperation then Except.error DimmError.InvalidLimitConfiguration
  else if 10000 ≤ cfg.totalAgents then Except.error DimmError.MaxAgentsReached
  else Except.ok
    ({ cfg with totalAgents := cfg.totalAgents + 1 },
     { mainWallet := cfg.authority
     , agentId := cfg.totalAgents
     , name := name
     , permissions := perms
     , maxSolPerTransaction := maxPerOperation
     , dailyLimit := dailyLimit
     , spentToday := 0
     , lastDailyReset := now
     , totalSpent := 0
     , totalTransactions := 0
     , revoked := false
     , createdAt := now
     , lastUsedAt := now
     , leafIndex := cfg.totalAgents })

end AgentRegistry

/-- Run a fallible operation on an account: on success the account is
replaced, on failure the account is byte-for-byte unchanged and the error
is reported. -/
def runOp (f : AgentAccount → Except DimmError AgentAccount) (a : AgentAccount) :
    AgentAccount × Option DimmError :=
  match f a with
  | Except.ok b => (b, none)
  | Except.error e => (a, some e)

/-- Run agent creation against a protocol config: on failure the config is
unchanged and no agent exists. -/
def runCreate (now : Int) (cfg : ProtocolConfig) (name : String)
    (perms : List AgentPermission) (maxPerOperation dailyLimit : Int) :
    ProtocolConfig × Option AgentAccount :=
  match AgentRegistry.create now cfg name perms maxPerOperation dailyLimit with
  | Except.ok (c, a) => (c, some a)
  | Except.error _ => (cfg, none)

/-! ## Shared helper lemmas -/

/-- The SDK canSpend is the conjunction of the per-operation cap check and
the daily-limit check on the stored counters. -/
theorem canSpend_eq_check (a : AgentAccount) (x : Int) :
    Agent.canSpend a x =
      (decide (x ≤ a.maxSolPerTransaction) && decide (a.spentToday + x ≤ a.dailyLimit)) := by
  unfold Agent.canSpend
  by_cases h1 : a.maxSolPerTransaction < x
  · have hx : decide (x ≤ a.maxSolPerTransaction) = false := decide_eq_false (by omega)
    rw [if_pos h1, hx, Bool.false_and]
  · have hx : decide (x ≤ a.maxSolPerTransaction) = true := decide_eq_true (by omega)
    by_cases h2 : a.dailyLimit < a.spentToday + x
    · have hy : decide (a.spentToday + x ≤ a.dailyLimit) = false := decide_eq_false (by omega)
      rw [if_neg h1, if_pos h2, hx, hy, Bool.and_false]
    · have hy : decide (a.spentToday + x ≤ a.dailyLimit) = true := decide_eq_true (by omega)
      rw [if_neg h1, if_neg h2, hx, hy, Bool.and_self]

/-! ## Concrete states used by counterexamples and witnesses -/

/-- An agent one full window past its last reset with the daily budget
exhausted: the spec-side canSpend (lazy reset applied) accepts a fresh
amount, the SDK canSpend does not. -/
def cexAgentC1 : AgentAccount :=
  { mainWallet := []
  , agentId := 0
  , name := String.mk [Char.ofNat 97]
  , permissions := []
  , maxSolPerTransaction := 100
  , dailyLimit := 100
  , spentToday := 100
  , lastDailyReset := 0
  , totalSpent := 100
  , totalTransactions := 1
  , revoked := false
  , createdAt := 0
  , lastUsedAt := 0
  , leafIndex := 0 }

/-- An agent used to show that getStats reads the stored spentToday even
one second past the 24-hour window boundary. -/
def cexAgentC2 : AgentAccount :=
  { cexAgentC1 with
      spentToday := 77
      dailyLimit := 200
      totalSpent := 77 }

/-- A never-revoked agent with room in both limits, for witnesses. -/
def wAgentSmall : AgentAccount :=
  { cexAgentC1 with
      spentToday := 0
      dailyLimit := 10
      maxSolPerTransaction := 5
      totalSpent := 0
      totalTransactions := 0 }

/-- A revoked copy of the small witness agent. -/
def wAgentRevoked : AgentAccount :=
  { wAgentSmall with revoked := true }

/-! ## C1 -/

/-- C1, counterexample: the claim says canSpend decides after applying the
lazy daily reset.  At cexAgentC1 (lastDailyReset = 0, spentToday =
dailyLimit = 100, maxPerOperation = 100) with amount 50 at time 86400,
the reset-applying check of the spec accepts, but the SDK canSpend of
agent.ts, which never consults the clock, rejects. -/
theorem canSpend_lazy_reset_cex :
    SpendingLimitEngine.canSpend 86400 cexAgentC1 50 = true ∧
    Agent.canSpend cexAgentC1 50 = false := by
  constructor <;> rfl

/-- C1, amended: Agent.canSpend of agent.ts returns true iff amount is at
most maxSolPerTransaction and the stored spentToday plus the amount is at
most dailyLimit; no lazy daily reset is applied, the function takes no
clock input. -/
theorem canSpend_iff (a : AgentAccount) (x : Int) :
    Agent.canSpend a x = true ↔
      x ≤ a.maxSolPerTransaction ∧ a.spentToday + x ≤ a.dailyLimit := by
  rw [canSpend_eq_check]
  simp only [Bool.and_eq_true, decide_eq_true_eq]

/-! ## C2 -/

/-- C2, counterexample: the claim says a read at lastDailyReset + 86401
first resets spentToday to 0.  At cexAgentC2 (lastDailyReset = 0,
spentToday = 77), the spec-side lazy reset at time 86401 yields 0, yet
getStats of agent.ts reports 77: no read in the SDK applies the reset. -/
theorem getStats_lazy_reset_cex :
    cexAgentC2.lastDailyReset = 0 ∧
    (SpendingLimitEngine.lazyReset 86401 cexAgentC2).spentToday = 0 ∧
    (Agent.getStats cexAgentC2).spentTodayLamports = 77 := by
  refine ⟨rfl, rfl, rfl⟩

/-- C2, amended: getStats and canSpend of agent.ts never evaluate
now - lastDailyReset and never reset spentToday: they report and use the
stored field unchanged at every time, on both sides of the window
boundary; the only time computation in the SDK, getTimeUntilReset,
reports 1 second remaining at T + 86399 and 0 at T + 86401 without
mutating any state. -/
theorem getStats_uses_stored_spentToday (a : AgentAccount) (x : Int) :
    (Agent.getStats a).spentTodayLamports = a.spentToday ∧
    (Agent.getStats a).remainingDailyLimitLamports = a.dailyLimit - a.spentToday ∧
    Agent.canSpend a x =
      (decide (x ≤ a.maxSolPerTransaction) && decide (a.spentToday + x ≤ a.dailyLimit)) ∧
    (getTimeUntilReset a.lastDailyReset (a.lastDailyReset + 86399)).2.2.2 = 1 ∧
    (getTimeUntilReset a.lastDailyReset (a.lastDailyReset + 86401)).2.2.2 = 0 := by
  refine ⟨rfl, rfl, canSpend_eq_check a x, ?_, ?_⟩
  · show (max 0 (a.lastDailyReset + 86400 - (a.lastDailyReset + 86399))).toNat = 1
    omega
  · show (max 0 (a.lastDailyReset + 86400 - (a.lastDailyReset + 86401))).toNat = 0
    omega

/-! ## C5 -/

/-- C5: validateAgentName of utils.ts accepts a name iff its length is
between 1 and 32, and the name-validation step of DimmClient.createAgent
rejects with the invalid-agent-name error iff the length is 0 or exceeds
32. -/
theorem validateAgentName_iff (name : String) :
    (validateAgentName name = true ↔ 1 ≤ name.length ∧ name.length ≤ 32) ∧
    (DimmClient.createAgentNameCheck name = Except.error DimmClient.invalidAgentNameMsg ↔
      name.length = 0 ∨ 32 < name.length) := by
  have hv : validateAgentName name = true ↔ 1 ≤ name.length ∧ name.length ≤ 32 := by
    unfold validateAgentName
    simp only [Bool.and_eq_true, decide_eq_true_eq]
    omega
  refine ⟨hv, ?_⟩
  unfold DimmClient.createAgentNameCheck
  by_cases h : validateAgentName name = true
  · rw [if_pos h]
    have hlen := hv.mp h
    constructor
    · intro hc
      cases hc
    · intro hc
      omega
  · rw [if_neg h]
    have hnot : ¬ (1 ≤ name.length ∧ name.length ≤ 32) := fun hh => h (hv.mpr hh)
    constructor
    · intro _
      omega
    · intro _
      rfl

/-! ## C8 -/

/-- C8: the revoked flag does not influence Agent.canSpend: for any agent
state, flipping only the revoked field leaves the result of canSpend at
every amount unchanged, so a revoked agent whose limits permit the amount
still gets true. -/
theorem canSpend_ignores_revoked (a : AgentAccount) (r : Bool) (x : Int) :
    Agent.canSpend { a with revoked := r } x = Agent.canSpend a x := rfl

/-! ## C9 -/

/-- C9: Agent.reload keeps the cached data exactly when the fetch yields
nothing and replaces it with the fetched account otherwise; since
DimmClient.getAgentAccount in the current source always yields nothing,
reload through it never changes the cached data. -/
theorem reload_frame (d a : AgentAccount) (info : Option (List Nat)) :
    Agent.reload d none = d ∧
    Agent.reload d (some a) = a ∧
    Agent.reload d (DimmClient.getAgentAccount info) = d := by
  refine ⟨rfl, rfl, ?_⟩
  cases info <;> rfl

/-! ## C10 -/

/-- C10: Agent.canSpend is antitone in the amount: whenever 0 <= y <= x
and the agent can spend x, it can also spend y. -/
theorem canSpend_antitone (a : AgentAccount) (x y : Int)
    (_h0 : 0 ≤ y) (hyx : y ≤ x) (hx : Agent.canSpend a x = true) :
    Agent.canSpend a y = true := by
  rw [canSpend_eq_check] at hx ⊢
  simp only [Bool.and_eq_true, decide_eq_true_eq] at hx ⊢
  omega

/-- C10, witness: at the small witness agent, spending 3 is allowed, hence
by antitonicity spending 2 is allowed. -/
theorem canSpend_antitone_witness :
    Agent.canSpend wAgentSmall 2 = true :=
  canSpend_antitone wAgentSmall 3 2 (by decide) (by decide) (by rfl)

/-! ## C3 -/

/-- A successful replacePermissions never changes the revoked flag. -/
theorem replacePermissions_ok_revoked (ps : List AgentPermission) (b c : AgentAccount)
    (h : PermissionEngine.replacePermissions ps b = Except.ok c) : c.revoked = b.revoked := by
  cases h
  rfl

/-- A successful updateLimits never changes the revoked flag. -/
theorem updateLimits_ok_revoked (m d : Option Int) (b c : AgentAccount)
    (h : SpendingLimitEngine.updateLimits m d b = Except.ok c) : c.revoked = b.revoked := by
  unfold SpendingLimitEngine.updateLimits at h
  split at h
  · cases h
  · cases h
    rfl

/-- A successful record never changes the revoked flag. -/
theorem record_ok_revoked (t x : Int) (b c : AgentAccount)
    (h : SpendingLimitEngine.record t x b = Except.ok c) : c.revoked = b.revoked := by
  unfold SpendingLimitEngine.record at h
  split at h
  · cases h
  · split at h
    · cases h
    · split at h
      · cases h
      · cases h
        rfl

/-- The lazy reset never changes the revoked flag. -/
theorem lazyReset_revoked (t : Int) (b : AgentAccount) :
    (SpendingLimitEngine.lazyReset t b).revoked = b.revoked := by
  unfold SpendingLimitEngine.lazyReset
  split <;> rfl

/-- Running a fallible operation keeps the revoked flag whenever the
operation keeps it on success (on failure the state is unchanged). -/
theorem runOp_fst_revoked (f : AgentAccount → Except DimmError AgentAccount) (b : AgentAccount)
    (hf : ∀ c, f b = Except.ok c → c.revoked = b.revoked) :
    (runOp f b).1.revoked = b.revoked := by
  unfold runOp
  cases hc : f b with
  | ok c => exact hf c hc
  | error e => rfl

/-- C3: revoking an unrevoked agent succeeds and sets revoked; revoking a
second time fails with the already-revoked error and returns the state
byte-for-byte unchanged; and none of the modelled state transitions
(revoke, replacePermissions, updateLimits, record, lazy reset) ever turns
revoked back off. -/
theorem revoke_one_way (a b : AgentAccount) (ps : List AgentPermission)
    (m d : Option Int) (t x : Int)
    (ha : a.revoked = false) (hb : b.revoked = true) :
    runOp AgentRegistry.revoke a = ({ a with revoked := true }, none) ∧
    runOp AgentRegistry.revoke { a with revoked := true } =
      ({ a with revoked := true }, some DimmError.AgentRevoked) ∧
    runOp AgentRegistry.revoke b = (b, some DimmError.AgentRevoked) ∧
    (runOp (PermissionEngine.replacePermissions ps) b).1.revoked = true ∧
    (runOp (SpendingLimitEngine.updateLimits m d) b).1.revoked = true ∧
    (runOp (SpendingLimitEngine.record t x) b).1.revoked = true ∧
    (SpendingLimitEngine.lazyReset t b).revoked = true := by
  refine ⟨?_, ?_, ?_, ?_, ?_, ?_, ?_⟩
  · simp [runOp, AgentRegistry.revoke, ha]
  · simp [runOp, AgentRegistry.revoke]
  · simp [runOp, AgentRegistry.revoke, hb]
  · rw [runOp_fst_revoked _ _ (replacePermissions_ok_revoked ps b), hb]
  · rw [runOp_fst_revoked _ _ (updateLimits_ok_revoked m d b), hb]
  · rw [runOp_fst_revoked _ _ (record_ok_revoked t x b), hb]
  · rw [lazyReset_revoked, hb]

/-- C3, witness: the revoke guarantees instantiated at the small witness
agent and its revoked copy. -/
theorem revoke_one_way_witness :
    runOp AgentRegistry.revoke wAgentSmall = ({ wAgentSmall with revoked := true }, none) ∧
    runOp AgentRegistry.revoke { wAgentSmall with revoked := true } =
      ({ wAgentSmall with revoked := true }, some DimmError.AgentRevoked) ∧
    runOp AgentRegistry.revoke wAgentRevoked = (wAgentRevoked, some DimmError.AgentRevoked) ∧
    (runOp (PermissionEngine.replacePermissions []) wAgentRevoked).1.revoked = true ∧
    (runOp (SpendingLimitEngine.updateLimits none none) wAgentRevoked).1.revoked = true ∧
    (runOp (SpendingLimitEngine.record 0 1) wAgentRevoked).1.revoked = true ∧
    (SpendingLimitEngine.lazyReset 0 wAgentRevoked).revoked = true :=
  revoke_one_way wAgentSmall wAgentRevoked [] none none 0 1 rfl rfl

/-! ## C4 -/

/-- C4: once totalAgents has reached 10000, creating an agent with an
otherwise valid request fails with MaxAgentsReached, the protocol config
keeps its counter unchanged, and no agent account comes into existence. -/
theorem create_max_agents (now : Int) (cfg : ProtocolConfig) (name : String)
    (ps : List AgentPermission) (m d : Int)
    (hcap : 10000 ≤ cfg.totalAgents)
    (hname : validateAgentName name = true) (hlim : m ≤ d) :
    AgentRegistry.create now cfg name ps m d = Except.error DimmError.MaxAgentsReached ∧
    runCreate now cfg name ps m d = (cfg, none) := by
  have h1 : ¬ (validateAgentName name = false) := by
    simp [hname]
  have h2 : ¬ (d < m) := by omega
  have hcreate : AgentRegistry.create now cfg name ps m d =
      Except.error DimmError.MaxAgentsReached := by
    unfold AgentRegistry.create
    rw [if_neg h1, if_neg h2, if_pos hcap]
  refine ⟨hcreate, ?_⟩
  unfold runCreate
  rw [hcreate]

/-- A protocol config whose agent counter sits at the 10000 cap. -/
def wCfgFull : ProtocolConfig :=
  { authority := []
  , merkleTree := []
  , totalAgents := 10000
  , version := 1
  , paused := false }

/-- A three-character agent name for witnesses. -/
def wNameBot : String := String.mk [Char.ofNat 98, Char.ofNat 111, Char.ofNat 116]

/-- C4, witness: at the full config, a valid creation request fails with
MaxAgentsReached and leaves the config unchanged. -/
theorem create_max_agents_witness :
    AgentRegistry.create 0 wCfgFull wNameBot [] 1 2 = Except.error DimmError.MaxAgentsReached ∧
    runCreate 0 wCfgFull wNameBot [] 1 2 = (wCfgFull, none) :=
  create_max_agents 0 wCfgFull wNameBot [] 1 2 (by decide) (by decide) (by decide)

/-! ## C6 -/

/-- C6: the three address derivations feed findProgramAddressSync exactly
the stated seed tuples; the numeric seed component is exactly eight bytes,
little-endian (its byte values are below 256 and decode back to the
encoded number); and the three kind seeds are pairwise distinct, so the
derivation is a deterministic function of the stated inputs. -/
theorem pda_seed_convention (w p : PubKey) (id tc : Nat)
    (hid : id < 2 ^ 64) (htc : tc < 2 ^ 64) :
    getProtocolConfigPDASeeds w = [PROTOCOL_SEED, w] ∧
    getAgentAccountPDASeeds w id = some [AGENT_SEED, w, u64LE id] ∧
    getActivityPDASeeds p tc = some [ACTIVITY_SEED, p, u64LE tc] ∧
    (u64LE id).length = 8 ∧
    (u64LE tc).length = 8 ∧
    fromLEBytes (u64LE id) = id ∧
    ((u64LE id).all fun b => decide (b < 256)) = true ∧
    (PROTOCOL_SEED ≠ AGENT_SEED ∧ AGENT_SEED ≠ ACTIVITY_SEED ∧
      PROTOCOL_SEED ≠ ACTIVITY_SEED) := by
  refine ⟨rfl, ?_, ?_, rfl, rfl, ?_, ?_, by decide⟩
  · simp only [getAgentAccountPDASeeds, writeBigUInt64LE]
    rw [if_pos hid]
    rfl
  · simp only [getActivityPDASeeds, writeBigUInt64LE]
    rw [if_pos htc]
    rfl
  · unfold fromLEBytes u64LE
    simp only [List.foldr]
    omega
  · simp only [u64LE, List.all_cons, List.all_nil, Bool.and_eq_true, decide_eq_true_eq,
      Bool.and_true]
    omega

/-- C6, witness: the seed convention instantiated at concrete keys, agent
id 5 and transaction count 300. -/
theorem pda_seed_convention_witness :
    getProtocolConfigPDASeeds [1, 2] = [PROTOCOL_SEED, [1, 2]] ∧
    getAgentAccountPDASeeds [1, 2] 5 = some [AGENT_SEED, [1, 2], u64LE 5] ∧
    getActivityPDASeeds [3] 300 = some [ACTIVITY_SEED, [3], u64LE 300] ∧
    (u64LE 5).length = 8 ∧
    (u64LE 300).length = 8 ∧
    fromLEBytes (u64LE 5) = 5 ∧
    ((u64LE 5).all fun b => decide (b < 256)) = true ∧
    (PROTOCOL_SEED ≠ AGENT_SEED ∧ AGENT_SEED ≠ ACTIVITY_SEED ∧
      PROTOCOL_SEED ≠ ACTIVITY_SEED) :=
  pda_seed_convention [1, 2] [3] 5 300 (by decide) (by decide)

/-! ## C7 -/

/-- The listAgents loop collects exactly the successful lookups over the
range of agent ids, in order. -/
theorem collectAgents_eq (g : Nat → Option AgentAccount) (n : Nat) :
    DimmClient.collectAgents g n = (List.range n).filterMap g := by
  induction n with
  | zero => rfl
  | succ k ih =>
    show DimmClient.collectAgents g k ++ (g k).toList = _
    rw [ih, List.range_succ, List.filterMap_append]
    cases hg : g k <;> simp [hg]

/-- C7: listAgents returns the empty list when the protocol config is
absent, and otherwise performs one lookup per agentId from 0 to
totalAgents - 1 and keeps, in increasing agentId order, exactly the
agents whose lookup succeeds. -/
theorem listAgents_spec (c : ProtocolConfig) (g : Nat → Option AgentAccount)
    (a : AgentAccount) :
    DimmClient.listAgents none g = [] ∧
    DimmClient.listAgents (some c) g = (List.range c.totalAgents).filterMap g ∧
    (a ∈ DimmClient.listAgents (some c) g ↔ ∃ i, i < c.totalAgents ∧ g i = some a) := by
  have h2 : DimmClient.listAgents (some c) g = (List.range c.totalAgents).filterMap g :=
    collectAgents_eq g c.totalAgents
  refine ⟨rfl, h2, ?_⟩
  rw [h2, List.mem_filterMap]
  constructor
  · rintro ⟨i, hi, hg⟩
    exact ⟨i, List.mem_range.mp hi, hg⟩
  · rintro ⟨i, hi, hg⟩
    exact ⟨i, List.mem_range.mpr hi, hg⟩

end Dimm
